import Mathlib

/-!
Verification development for the vg_painter_utilities plugin scripts.

The Python modules under src/ are shallowly embedded: strings are lists of
characters or Lean strings, Python None is Option.none, fallible statements
return error values, and the calls issued to the host application
(Substance 3D Painter) and to the GUI toolkit are recorded as explicit
call-trace data. Each definition mirrors one Python function or one piece
of module-level data from the repository.
-/

namespace VGPainter

/- ===================== Python string primitives =====================
   Embeddings of the Python builtins used by
   src/modules/vg_pt_utils/vg_export.py (str.rfind, slicing, str.split). -/

/-- Python str.rfind for a one-character needle: the highest index at which
the character occurs, or none when it does not occur (Python returns -1). -/
def rfindChar (s : List Char) (c : Char) : Option Nat :=
  ((List.range s.length).filter (fun i => decide (s.get? i = some c))).getLast?

/-- Python str.rfind for a substring needle: the highest index at which the
pattern starts inside s, or none when it does not occur. -/
def rfindSub (s pat : List Char) : Option Nat :=
  ((List.range (s.length + 1)).filter (fun i => pat.isPrefixOf (s.drop i))).getLast?

/-- Python slice s[a:b] for nonnegative bounds: empty when b ≤ a. -/
def pySlice (s : List Char) (a b : Nat) : List Char :=
  (s.take b).drop a

/-- Python x.split(".")[0]: the part of x before its first dot (x itself
when x has no dot). -/
def splitDotHead (s : List Char) : List Char :=
  s.takeWhile (fun c => decide (c ≠ '.'))

/-- Whether pat occurs as a contiguous substring of s. -/
def containsSub (s pat : List Char) : Bool :=
  (List.range (s.length + 1)).any (fun i => pat.isPrefixOf (s.drop i))

/- ===================== vg_export.ChannelTypeExtractor ===================== -/

/-- The ambientOcclusion-to-AO renaming applied at
src/modules/vg_pt_utils/vg_export.py lines 63-64. -/
def aoRename (t : List Char) : List Char :=
  if t = "ambientOcclusion".data then "AO".data else t

/-- ChannelTypeExtractor.extract_channel_type
(src/modules/vg_pt_utils/vg_export.py lines 48-66): take the slice strictly
between the last underscore and the last occurrence of ".png", keep the part
before its first dot, rename ambientOcclusion to AO; return None when the
path has no underscore or no ".png". -/
def extract_channel_type (texture_path : List Char) : Option (List Char) :=
  match rfindChar texture_path '_', rfindSub texture_path ".png".data with
  | some last_underscore_index, some extension_index =>
      some (aoRename (splitDotHead
        (pySlice texture_path (last_underscore_index + 1) extension_index)))
  | _, _ => none

/-- a is the last index at which character c occurs in s. -/
def isLastCharIdx (s : List Char) (c : Char) (a : Nat) : Prop :=
  s.get? a = some c ∧ ∀ j, a < j → s.get? j ≠ some c

/-- b is the last index at which pattern pat starts inside s. -/
def isLastSubIdx (s pat : List Char) (b : Nat) : Prop :=
  pat.isPrefixOf (s.drop b) = true ∧ ∀ j, b < j → pat.isPrefixOf (s.drop j) = false

/- ===================== vg_layerstack data model =====================
   Nodes of the layer stack as the code reads them: a name, a node type,
   sublayer names (read only for group layers), and an optional mask whose
   state is its background color plus the effects inserted into its stack. -/

inductive NodeType
  | PaintLayer
  | FillLayer
  | GroupLayer
deriving DecidableEq, Repr

inductive MaskBackground
  | Black
  | White
deriving DecidableEq, Repr

/-- A mask on a layer: its background color and the identifiers of the
effects inserted into its mask stack (a freshly added mask has none). -/
structure MaskState where
  background : MaskBackground
  effects : List String
deriving DecidableEq, Repr

structure SubLayerInfo where
  name : String
deriving DecidableEq, Repr

structure LayerNode where
  name : String
  nodeType : NodeType
  subLayers : List SubLayerInfo
  mask : Option MaskState
deriving DecidableEq, Repr

/-- The host-side state the vg_layerstack code reads from a texture-set
stack: its root layer nodes, the currently selected nodes, and the names of
all channels of the stack. -/
structure Stack where
  rootLayers : List LayerNode
  selectedNodes : List LayerNode
  allChannels : List String
deriving DecidableEq, Repr

/-- VG_StackManager instance state
(src/modules/vg_pt_utils/vg_layerstack.py lines 67-107). The private
attributes set to None in the constructor are Option.none here. -/
structure VG_StackManager where
  current_stack : Option Stack
  layer_selection : Option (List LayerNode)
  stack_layers : Option (List LayerNode)
  stack_layers_count : Option Nat
deriving DecidableEq, Repr

/-- VG_StackManager.__init__: every private attribute starts as None; when a
project is open the current stack and the layer selection are fetched from
the host, while _stack_layers and _stack_layers_count stay None. -/
def VG_StackManager.init (host : Option Stack) : VG_StackManager :=
  match host with
  | some stk =>
      { current_stack := some stk
        layer_selection := some stk.selectedNodes
        stack_layers := none
        stack_layers_count := none }
  | none =>
      { current_stack := none
        layer_selection := none
        stack_layers := none
        stack_layers_count := none }

/- ===================== VG_StackManager.add_layer ===================== -/

inductive InsertPosition
  | fromTexturesetStack
  | aboveNode (node : LayerNode)
deriving DecidableEq, Repr

structure NewLayer where
  name : String
  activeChannels : List String
deriving DecidableEq, Repr

inductive AddLayerOutcome
  | loggedError (msg : String)
  | raisedIndexError
  | created (pos : InsertPosition) (layer : NewLayer)
deriving DecidableEq, Repr

/-- Python comparison "current_layer_count == 0" where the left side may be
None: None == 0 is False in Python. -/
def pyOptNatEqZero (x : Option Nat) : Bool :=
  match x with
  | some n => decide (n = 0)
  | none => false

/-- Python truthiness of an optional list: None and the empty list are
falsy. -/
def pyTruthyList (l : Option (List String)) : Bool :=
  match l with
  | some (_ :: _) => true
  | _ => false

/-- The channels the new layer receives
(src/modules/vg_pt_utils/vg_layerstack.py lines 168-173): the given list
when it is truthy, otherwise all channels of the current stack. -/
def newLayerChannels (active_channels : Option (List String)) (stk : Stack) :
    List String :=
  if pyTruthyList active_channels then active_channels.getD []
  else stk.allChannels

/-- VG_StackManager.add_layer
(src/modules/vg_pt_utils/vg_layerstack.py lines 120-178), mirrored
statement by statement. Note that line 127 reads the private attribute
_stack_layers_count directly, not the stack_layers_count property, and that
line 144 indexes selected_layer[0], an IndexError when the selection read
from the host is empty. -/
def add_layer (self : VG_StackManager) (layer_type : String)
    (active_channels : Option (List String) := none)
    (layer_position : String := "Above") : AddLayerOutcome :=
  if layer_position ≠ "Above" ∧ layer_position ≠ "On Top" then
    .loggedError "layer_position parameter must be Above or On Top"
  else
    let current_layer_count := self.stack_layers_count
    match self.current_stack with
    | none => .loggedError "No active stack found"
    | some stk =>
        let selected_layer := stk.selectedNodes
        let insert_position : Option InsertPosition :=
          if pyOptNatEqZero current_layer_count then
            some .fromTexturesetStack
          else if layer_position = "Above" then
            match selected_layer with
            | [] => none
            | x :: _ => some (.aboveNode x)
          else
            some .fromTexturesetStack
        match insert_position with
        | none => .raisedIndexError
        | some pos =>
            if layer_type = "fill" then
              .created pos
                { name := "New Fill layer"
                  activeChannels := newLayerChannels active_channels stk }
            else if layer_type = "paint" then
              .created pos
                { name := "New Paint layer"
                  activeChannels := newLayerChannels active_channels stk }
            else
              .loggedError "Invalid layer type"

/- ===================== VG_StackManager.add_mask ===================== -/

/-- The color_map dictionary of add_mask
(src/modules/vg_pt_utils/vg_layerstack.py lines 188-191) as a lookup. -/
def color_map (s : String) : Option MaskBackground :=
  if s = "Black" then some .Black
  else if s = "White" then some .White
  else none

/-- Python truthiness of an optional string: None and the empty string are
falsy. -/
def pyTruthyStr (s : Option String) : Bool :=
  match s with
  | some str => decide (str ≠ "")
  | none => false

/-- The body of the per-selected-layer loop of add_mask
(src/modules/vg_pt_utils/vg_layerstack.py lines 201-216). Removing a mask
and adding a new one leaves the layer with a fresh mask whose effect stack
is empty; the background is the requested color, the inversion of the
current one when no color was requested on a masked layer, or the
color_map.get default Black on an unmasked layer. -/
def add_mask_update_node (mask_bkg_color : Option String) (node : LayerNode) :
    LayerNode :=
  match node.mask with
  | some current_mask =>
      if pyTruthyStr mask_bkg_color then
        -- remove the existing mask, add the specified color; the
        -- color_map lookup is total here because add_mask validated the
        -- color before the loop
        { node with
            mask := some
              { background := (color_map (mask_bkg_color.getD "")).getD .Black
                effects := [] } }
      else
        let new_mask_background :=
          if current_mask.background = MaskBackground.Black then
            MaskBackground.White
          else
            MaskBackground.Black
        { node with mask := some { background := new_mask_background, effects := [] } }
  | none =>
      { node with
          mask := some
            { background := (mask_bkg_color.bind color_map).getD .Black
              effects := [] } }

inductive AddMaskOutcome
  | loggedError (msg : String)
  | noStack
  | updated (nodes : List LayerNode)
deriving DecidableEq, Repr

/-- VG_StackManager.add_mask
(src/modules/vg_pt_utils/vg_layerstack.py lines 182-216): validate the
color, then, when a current stack exists, update every selected node. -/
def add_mask (self : VG_StackManager) (mask_bkg_color : Option String := none) :
    AddMaskOutcome :=
  if pyTruthyStr mask_bkg_color ∧ (mask_bkg_color.bind color_map).isNone then
    .loggedError "Invalid mask color. Choose Black or White."
  else
    match self.current_stack with
    | some stk => .updated (stk.selectedNodes.map (add_mask_update_node mask_bkg_color))
    | none => .noStack

/- ============ masks with procedural generators (AO / Curvature) ============ -/

/-- The host resource-search results, keyed by the literal query string the
code passes to resource.search. -/
structure ResourceEnv where
  searchResults : String → List String

def ao_generator_query : String := "s:starterassets u:generator n:Ambient Occlusion"

def curvature_generator_query : String := "s:starterassets u:generator n:Curvature"

inductive MaskGenOutcome
  | loggedError (msg : String)
  | noStack
  | raisedIndexError
  | updated (nodes : List LayerNode)
deriving DecidableEq, Repr

/-- layerstack.insert_generator_effect at
InsertPosition.inside_node(layer, NodeStack.Mask): one generator effect is
appended to the mask stack of the layer. -/
def insert_generator_effect_node (identifier : String) (node : LayerNode) :
    LayerNode :=
  { node with
      mask := node.mask.map (fun m => { m with effects := m.effects ++ [identifier] }) }

/-- Shared shape of add_black_mask_with_ao_generator and
add_black_mask_with_curvature_generator
(src/modules/vg_pt_utils/vg_layerstack.py lines 220-248): add_mask with
Black, then take resource.search(query)[0] (an IndexError when the search
returns nothing) and insert one generator effect inside the mask of every
selected layer. -/
def add_black_mask_with_generator (query : String) (env : ResourceEnv)
    (self : VG_StackManager) : MaskGenOutcome :=
  match add_mask self (some "Black") with
  | .updated current_layer =>
      match env.searchResults query with
      | [] => .raisedIndexError
      | generator_resource :: _ =>
          .updated (current_layer.map (insert_generator_effect_node generator_resource))
  | .noStack => .noStack
  | .loggedError msg => .loggedError msg

/-- VG_StackManager.add_black_mask_with_ao_generator
(src/modules/vg_pt_utils/vg_layerstack.py lines 220-233). -/
def add_black_mask_with_ao_generator (env : ResourceEnv)
    (self : VG_StackManager) : MaskGenOutcome :=
  add_black_mask_with_generator ao_generator_query env self

/-- VG_StackManager.add_black_mask_with_curvature_generator
(src/modules/vg_pt_utils/vg_layerstack.py lines 236-248). -/
def add_black_mask_with_curvature_generator (env : ResourceEnv)
    (self : VG_StackManager) : MaskGenOutcome :=
  add_black_mask_with_generator curvature_generator_query env self

/- ============ VG_StackManager.generate_ref_point_layer ============ -/

def ref_point_base_name : String := "REF POINT LAYER"

/-- Python str.startswith, embedded structurally on the character lists of
the two strings. -/
def pyStartsWith (s pre : String) : Bool :=
  pre.data.isPrefixOf s.data

/-- The counting loop of generate_ref_point_layer
(src/modules/vg_pt_utils/vg_layerstack.py lines 284-298): the counter
starts at 1 and is incremented for every root node whose name starts with
the base name, and additionally for every sublayer of a group-layer root
node whose name starts with the base name. -/
def generate_ref_point_count (all_nodes : List LayerNode) : Nat :=
  all_nodes.foldl
    (fun ref_point_count node =>
      let ref_point_count :=
        if pyStartsWith node.name ref_point_base_name then ref_point_count + 1
        else ref_point_count
      if node.nodeType = NodeType.GroupLayer then
        node.subLayers.foldl
          (fun c sublayer =>
            if pyStartsWith sublayer.name ref_point_base_name then c + 1 else c)
          ref_point_count
      else ref_point_count)
    1

/-- The name generate_ref_point_layer gives the new paint layer
(src/modules/vg_pt_utils/vg_layerstack.py line 302). -/
def generate_ref_point_name (all_nodes : List LayerNode) : String :=
  ref_point_base_name ++ " (" ++ toString (generate_ref_point_count all_nodes) ++ ")"

/-- The count the claim describes: the number of root nodes plus
group-layer sublayers whose name starts with the base name. -/
def ref_point_matches (all_nodes : List LayerNode) : Nat :=
  (all_nodes.filter (fun n => pyStartsWith n.name ref_point_base_name)).length
    + ((all_nodes.filter (fun n => decide (n.nodeType = NodeType.GroupLayer))).map
        (fun n =>
          (n.subLayers.filter
            (fun s => pyStartsWith s.name ref_point_base_name)).length)).sum

/-- All names already present in a stack as generate_ref_point_layer sees
them: root node names together with the names of group-layer sublayers. -/
def stackNodeNames (all_nodes : List LayerNode) : List String :=
  all_nodes.map LayerNode.name
    ++ (all_nodes.filter (fun n => decide (n.nodeType = NodeType.GroupLayer))).flatMap
        (fun n => n.subLayers.map SubLayerInfo.name)

/-- How much one root node contributes to the reference-point count: one
for its own matching name, plus one per matching sublayer when it is a
group layer. -/
def ref_point_node_contribution (node : LayerNode) : Nat :=
  (if pyStartsWith node.name ref_point_base_name then 1 else 0)
    + (if node.nodeType = NodeType.GroupLayer then
        (node.subLayers.filter (fun s => pyStartsWith s.name ref_point_base_name)).length
      else 0)

/-- A stack on which the computed reference-point-layer name collides with
an existing node name: one root node already named "REF POINT LAYER (2)". -/
def ref_point_collision_nodes : List LayerNode :=
  [ { name := "REF POINT LAYER (2)"
      nodeType := NodeType.PaintLayer
      subLayers := []
      mask := none } ]

/- ===================== vg_export.ExportConfigGenerator ===================== -/

/-- A channel of a texture-set stack, as returned by stack.all_channels;
the code only reads its name. -/
structure Channel where
  name : String
deriving DecidableEq, Repr

/-- The texture-set information dictionary built by
vg_project_info.TextureSetInfo.fetch_texture_set_info_from_stack
(src/modules/vg_pt_utils/vg_project_info.py lines 71-96), together with the
has_uv_tiles flag the export generator reads from the texture set. -/
structure TextureSetInfoData where
  textureSetName : String
  channels : List Channel
  hasUVTiles : Bool
  uvTilesCoordinates : List (Nat × Nat)
deriving DecidableEq, Repr

/-- One of the four per-channel source/destination entries of a map export
(src/modules/vg_pt_utils/vg_export.py lines 168-175). -/
structure ChannelMapping where
  destChannel : String
  srcChannel : String
  srcMapType : String
  srcMapName : String
deriving DecidableEq, Repr

structure MapExportParameters where
  bitDepth : String
  dithering : Bool
  fileFormat : String
deriving DecidableEq, Repr

structure MapExportEntry where
  fileName : String
  channels : List ChannelMapping
  parameters : MapExportParameters
deriving DecidableEq, Repr

structure ExportPreset where
  name : String
  maps : List MapExportEntry
deriving DecidableEq, Repr

structure ExportParametersEntry where
  dithering : Bool
  paddingAlgorithm : String
deriving DecidableEq, Repr

structure ExportConfig where
  exportPath : String
  exportShaderParams : Bool
  defaultExportPreset : String
  exportPresets : List ExportPreset
  exportList : List String
  exportParameters : List ExportParametersEntry
  uvTiles : List (Nat × Nat)
deriving DecidableEq, Repr

/-- The map name under which a channel is exported
(src/modules/vg_pt_utils/vg_export.py lines 160-163): the channel name,
with AO renamed to ambientOcclusion. -/
def exportMapName (c : Channel) : String :=
  if c.name = "AO" then "ambientOcclusion" else c.name

/-- ExportConfigGenerator.generate_current_channels_maps_export
(src/modules/vg_pt_utils/vg_export.py lines 148-190), as a pure function of
the texture-set information the host returns. -/
def generate_current_channels_maps_export (info : TextureSetInfoData) :
    List MapExportEntry :=
  let udim_suffix := if info.hasUVTiles then ".$udim" else ""
  let channels_names := info.channels.map exportMapName
  channels_names.map (fun channel_name =>
    { fileName := "$mesh_$textureSet_" ++ channel_name ++ udim_suffix
      channels := "RGBA".data.map (fun channel =>
        { destChannel := String.mk [channel]
          srcChannel := String.mk [channel]
          srcMapType := "DocumentMap"
          srcMapName := channel_name })
      parameters := { bitDepth := "8", dithering := false, fileFormat := "png" } })

/-- ExportConfigGenerator.generate_export_config
(src/modules/vg_pt_utils/vg_export.py lines 192-212). -/
def generate_export_config (export_path preset_name : String)
    (info : TextureSetInfoData) : ExportConfig :=
  let current_channels_export_preset : ExportPreset :=
    { name := preset_name
      maps := generate_current_channels_maps_export info }
  { exportPath := export_path
    exportShaderParams := false
    defaultExportPreset := preset_name
    exportPresets := [current_channels_export_preset]
    exportList := [info.textureSetName]
    exportParameters := [{ dithering := true, paddingAlgorithm := "infinite" }]
    uvTiles := info.uvTilesCoordinates }

/- ===================== vg_baking.quick_bake ===================== -/

/-- textureset.MeshMapUsage applied to a baker id
(src/modules/vg_pt_utils/vg_baking.py line 28). -/
structure MeshMapUsage where
  id : Nat
deriving DecidableEq, Repr

structure Resolution where
  width : Nat
  height : Nat
deriving DecidableEq, Repr

/-- The host state quick_bake reads: the active texture-set name, its
current resolution, and the baker ids already enabled for it. -/
structure BakingHostEnv where
  activeTextureSetName : String
  resolution : Resolution
  enabledBakerIds : List Nat
deriving DecidableEq, Repr

inductive BakingCall
  | setCommonOutputSize (textureSetName : String) (size : Nat × Nat)
  | setEnabledBakers (textureSetName : String) (bakers : List MeshMapUsage)
  | connectBakingEnded
  | bakeAsync (textureSetName : String)
deriving DecidableEq, Repr

/-- BakingParameterConfigurator.mesh_maps_to_bake_list
(src/modules/vg_pt_utils/vg_baking.py lines 26-29). -/
def mesh_maps_to_bake_list (id_list : List Nat) : List MeshMapUsage :=
  id_list.map (fun i => { id := i })

/-- BakingParameterConfigurator.configure_baking_parameters
(src/modules/vg_pt_utils/vg_baking.py lines 32-53): set the common
OutputSize parameter, then enable the given bakers; recorded as the host
calls it issues. -/
def configure_baking_parameters (textureset_name : String) (width height : Nat)
    (mesh_maps_to_bake : List Nat) : List BakingCall :=
  [ .setCommonOutputSize textureset_name (width, height),
    .setEnabledBakers textureset_name (mesh_maps_to_bake_list mesh_maps_to_bake) ]

/-- BakingProcessManager.start_baking
(src/modules/vg_pt_utils/vg_baking.py lines 75-87): connect the
BakingProcessEnded event, then start the asynchronous bake. -/
def start_baking (current_texture_set : String) : List BakingCall :=
  [ .connectBakingEnded, .bakeAsync current_texture_set ]

/-- vg_baking.quick_bake (src/modules/vg_pt_utils/vg_baking.py
lines 97-122). Python int(math.log2(n)) on a positive machine-size integer
is the floor of the base-2 logarithm, embedded as Nat.log2. -/
def quick_bake (env : BakingHostEnv) : List BakingCall :=
  let textureset_name := env.activeTextureSetName
  let width := Nat.log2 env.resolution.width
  let height := Nat.log2 env.resolution.height
  let enabled_bakers := env.enabledBakerIds
  configure_baking_parameters textureset_name width height enabled_bakers
    ++ start_baking textureset_name

/- ===================== vg_menu_launcher.create_menu ===================== -/

inductive MenuEntry
  | separator
  | action (title : String) (handler : String) (shortcut : Option String)
deriving DecidableEq, Repr

/-- The actions_with_separators list of create_menu
(src/plugins/vg_menu_launcher.py lines 123-142), with each action holding
the name of the handler function it is connected to. -/
def actions_with_separators : List MenuEntry :=
  [ .action "New Paint Layer" "new_paint_layer" (some "Ctrl+P"),
    .separator,
    .action "New Fill Layer with Base Color" "new_fill_layer_base" (some "Ctrl+F"),
    .action "New Fill Layer with Height" "new_fill_layer_height" (some "Ctrl+Alt+F"),
    .action "New Fill Layer with All Channels" "new_fill_layer_all" (some "Ctrl+Shift+F"),
    .action "New Fill Layer, no channel" "new_fill_layer_empty" (some "Alt+F"),
    .separator,
    .action "Add Mask to Selected Layer" "add_mask" (some "Ctrl+M"),
    .action "Add Mask with Fill Effect" "add_mask_with_fill_effect" (some "Shift+M"),
    .action "Add Mask with AO Generator" "add_ao_mask" (some "Ctrl+Shift+M"),
    .action "Add Mask with Curvature Generator" "add_curvature_mask" (some "Ctrl+Alt+M"),
    .separator,
    .action "Create New Layer from Visible Stack" "create_layer_from_stack" (some "Ctrl+Shift+G"),
    .action "Flatten Stack" "flatten_stack" none,
    .separator,
    .action "Create Reference Point Layer" "create_ref_point_layer" (some "Ctrl+R"),
    .separator,
    .action "Quick Bake" "launch_quick_bake" (some "Ctrl+B") ]

inductive UICall
  | addMenu (title : String)
  | addSeparator
  | addAction (title : String) (handler : String) (shortcut : Option String)
deriving DecidableEq, Repr

/-- vg_menu_launcher.create_menu (src/plugins/vg_menu_launcher.py
lines 112-154) as the sequence of GUI calls it issues: one menu is created
and added, then each list item becomes a separator or an action with its
optional shortcut. -/
def create_menu : List UICall :=
  UICall.addMenu "VG Utilities" ::
    actions_with_separators.map (fun item =>
      match item with
      | .separator => UICall.addSeparator
      | .action text func shortcut => UICall.addAction text func shortcut)

/- ===================== vg_shortcuts_launcher.define_shortcuts ===================== -/

/-- A Qt key sequence built from the CTRL, ALT and SHIFT modifier flags and
a key. -/
structure KeyCombo where
  ctrl : Bool
  alt : Bool
  shiftMod : Bool
  key : String
deriving DecidableEq, Repr

/-- vg_shortcuts_launcher.define_shortcuts
(src/plugins/vg_shortcuts_launcher.py lines 118-171): the keyboard
shortcuts it creates, each paired with the handler function its activated
signal is connected to. -/
def define_shortcuts : List (KeyCombo × String) :=
  [ ({ ctrl := true, alt := false, shiftMod := false, key := "F" },
      "on_ctrl_plus_f_shortcut_activated"),
    ({ ctrl := true, alt := true, shiftMod := false, key := "F" },
      "on_ctrl_plus_alt_plus_f_shortcut_activated"),
    ({ ctrl := true, alt := false, shiftMod := true, key := "F" },
      "on_ctrl_plus_shift_plus_f_shortcut_activated"),
    ({ ctrl := true, alt := false, shiftMod := false, key := "P" },
      "on_ctrl_plus_p_shortcut_activated"),
    ({ ctrl := true, alt := false, shiftMod := false, key := "M" },
      "on_ctrl_plus_m_shortcut_activated"),
    ({ ctrl := true, alt := false, shiftMod := true, key := "M" },
      "on_ctrl_plus_shift_plus_m_shortcut_activated"),
    ({ ctrl := true, alt := true, shiftMod := false, key := "M" },
      "on_ctrl_plus_alt_plus_m_shortcut_activated"),
    ({ ctrl := true, alt := false, shiftMod := true, key := "G" },
      "on_ctrl_plus_shift_plus_g_shortcut_activated") ]

/- ===================== module attribute tables =====================
   The module-level names each repository module defines (its imports, its
   classes and its top-level functions), read off the source files. -/

/-- Top-level names of src/modules/vg_pt_utils/vg_layerstack.py. -/
def vg_layerstack_module_attrs : List String :=
  [ "textureset", "layerstack", "project", "resource", "logging",
    "colormanagement", "VG_StackManager" ]

/-- Top-level names of src/modules/vg_pt_utils/vg_export.py. -/
def vg_export_module_attrs : List String :=
  [ "os", "time", "export", "textureset", "resource", "layerstack",
    "vg_layerstack", "vg_project_info",
    "TextureImporter", "ChannelTypeExtractor", "LayerTextureAssigner",
    "ResourceCleaner", "TextureAssignmentManager", "ExportConfigGenerator",
    "TextureExporter", "create_layer_from_stack", "flatten_stack" ]

/-- Top-level names of src/modules/vg_pt_utils/vg_baking.py. -/
def vg_baking_module_attrs : List String :=
  [ "math", "baking", "textureset", "ui", "event", "vg_project_info",
    "BakingParameters", "BakingParameterConfigurator", "BakingProcessManager",
    "quick_bake" ]

def moduleAttrs (moduleName : String) : List String :=
  if moduleName = "vg_layerstack" then vg_layerstack_module_attrs
  else if moduleName = "vg_export" then vg_export_module_attrs
  else if moduleName = "vg_baking" then vg_baking_module_attrs
  else []

structure ModuleRef where
  moduleName : String
  attrName : String
deriving DecidableEq, Repr

/-- Whether an attribute access module.attr succeeds: Python raises
AttributeError when the module does not define the name. -/
def resolvesModuleRef (r : ModuleRef) : Bool :=
  decide (r.attrName ∈ moduleAttrs r.moduleName)

/-- The keyword parameters VG_StackManager.add_layer accepts
(src/modules/vg_pt_utils/vg_layerstack.py line 120). -/
def add_layer_parameter_names : List String :=
  [ "layer_type", "active_channels", "layer_position" ]

/-- The keyword arguments the vg_menu_launcher fill/paint handlers pass to
add_layer (src/plugins/vg_menu_launcher.py lines 30-54). -/
def menu_add_layer_call_kwargs : List String :=
  [ "layer_type", "active_channels", "layer_name" ]

/-- The attribute accesses on repository modules that each menu handler of
src/plugins/vg_menu_launcher.py performs when triggered, including the ones
reached inside vg_export for the two wrapper handlers. -/
def menu_handler_module_refs : List (String × List ModuleRef) :=
  [ ("new_paint_layer", [⟨"vg_layerstack", "LayerManager"⟩]),
    ("new_fill_layer_base", [⟨"vg_layerstack", "LayerManager"⟩]),
    ("new_fill_layer_height", [⟨"vg_layerstack", "LayerManager"⟩]),
    ("new_fill_layer_all", [⟨"vg_layerstack", "LayerManager"⟩]),
    ("new_fill_layer_empty", [⟨"vg_layerstack", "LayerManager"⟩]),
    ("add_mask",
      [⟨"vg_layerstack", "LayerManager"⟩, ⟨"vg_layerstack", "MaskManager"⟩]),
    ("add_mask_with_fill_effect",
      [⟨"vg_layerstack", "LayerManager"⟩, ⟨"vg_layerstack", "MaskManager"⟩]),
    ("add_ao_mask",
      [⟨"vg_layerstack", "LayerManager"⟩, ⟨"vg_layerstack", "MaskManager"⟩]),
    ("add_curvature_mask",
      [⟨"vg_layerstack", "LayerManager"⟩, ⟨"vg_layerstack", "MaskManager"⟩]),
    ("create_layer_from_stack",
      [⟨"vg_export", "create_layer_from_stack"⟩, ⟨"vg_layerstack", "LayerManager"⟩]),
    ("flatten_stack",
      [⟨"vg_export", "flatten_stack"⟩, ⟨"vg_layerstack", "LayerManager"⟩]),
    ("create_ref_point_layer", [⟨"vg_layerstack", "LayerManager"⟩]),
    ("launch_quick_bake", [⟨"vg_baking", "quick_bake"⟩]) ]

/-- The attribute accesses on repository modules that each shortcut handler
of src/plugins/vg_shortcuts_launcher.py performs when triggered. -/
def shortcut_handler_module_refs : List (String × List ModuleRef) :=
  [ ("on_ctrl_plus_f_shortcut_activated", [⟨"vg_layerstack", "VG_StackManager"⟩]),
    ("on_ctrl_plus_alt_plus_f_shortcut_activated", [⟨"vg_layerstack", "VG_StackManager"⟩]),
    ("on_ctrl_plus_shift_plus_f_shortcut_activated", [⟨"vg_layerstack", "VG_StackManager"⟩]),
    ("on_ctrl_plus_p_shortcut_activated", [⟨"vg_layerstack", "VG_StackManager"⟩]),
    ("on_ctrl_plus_m_shortcut_activated", [⟨"vg_layerstack", "VG_StackManager"⟩]),
    ("on_ctrl_plus_shift_plus_m_shortcut_activated", [⟨"vg_layerstack", "VG_StackManager"⟩]),
    ("on_ctrl_plus_alt_plus_m_shortcut_activated", [⟨"vg_layerstack", "VG_StackManager"⟩]),
    ("on_ctrl_plus_shift_plus_g_shortcut_activated", [⟨"vg_export", "VG_ExportManager"⟩]) ]

/- ===================== vg_export.flatten_stack ===================== -/

inductive PyError
  | attributeError (moduleName attrName : String)
  | typeError (message : String)
deriving DecidableEq, Repr

inductive HostCall
  | getDefaultExportPath
  | readTextureSetInfo
  | exportProjectTextures
  | deleteNode (layerName : String)
  | insertFillLayer
deriving DecidableEq, Repr

/-- vg_export.flatten_stack (src/modules/vg_pt_utils/vg_export.py
lines 265-291), mirrored statement by statement over the module attribute
tables: the host calls issued so far are paired with the first uncaught
error, and execution stops at that error. The root-layer names of the
active stack and the success of the export are taken as inputs. -/
def flatten_stack_run (rootLayerNames : List String) (exportSucceeds : Bool) :
    List HostCall × Option PyError :=
  -- export_path = export.get_default_export_path()
  let calls := [HostCall.getDefaultExportPath]
  -- config_generator = ExportConfigGenerator(export_path): module-local class
  -- export_config = config_generator.generate_export_config(): reads the
  -- texture-set information once for the maps and once for the config
  let calls := calls ++ [HostCall.readTextureSetInfo, HostCall.readTextureSetInfo]
  -- exporter = TextureExporter(): module-local class
  -- stack_manager = vg_layerstack.LayerManager()
  if resolvesModuleRef ⟨"vg_layerstack", "LayerManager"⟩ = false then
    (calls, some (.attributeError "vg_layerstack" "LayerManager"))
  else
    -- continuation of the literal statement sequence, reachable only if the
    -- vg_layerstack module defined LayerManager
    let calls := calls ++ [HostCall.exportProjectTextures]
    -- stack_manager.delete_stack_content(): one delete_node per root layer
    let calls := calls ++ rootLayerNames.map HostCall.deleteNode
    if exportSucceeds then
      -- stack_manager.add_layer("fill", layer_position="On Top",
      --                         layer_name="Stack layer")
      if decide ("layer_name" ∈ add_layer_parameter_names) then
        (calls ++ [HostCall.insertFillLayer], none)
      else
        (calls, some (.typeError "add_layer got an unexpected keyword argument layer_name"))
    else
      (calls, none)

/-- Whether a host call deletes a layer node. -/
def isDeleteNodeCall (c : HostCall) : Bool :=
  match c with
  | .deleteNode _ => true
  | _ => false

/- ===================== helper predicates on call traces ===================== -/

def isAddMenuCall (c : UICall) : Bool :=
  match c with
  | .addMenu _ => true
  | _ => false

def isAddActionCall (c : UICall) : Bool :=
  match c with
  | .addAction _ _ _ => true
  | _ => false

def isAddSeparatorCall (c : UICall) : Bool :=
  match c with
  | .addSeparator => true
  | _ => false

/-- The title and optional shortcut of an added action. -/
def actionTitleAndShortcut (c : UICall) : Option (String × Option String) :=
  match c with
  | .addAction title _ shortcut => some (title, shortcut)
  | _ => none

def isBakeAsyncCall (c : BakingCall) : Bool :=
  match c with
  | .bakeAsync _ => true
  | _ => false

/- ===================== concrete witness fixtures ===================== -/

/-- A texture set with two channels, one of them named AO, and no UV
tiles. -/
def sampleTextureSetInfo : TextureSetInfoData :=
  { textureSetName := "Mat1"
    channels := [{ name := "BaseColor" }, { name := "AO" }]
    hasUVTiles := false
    uvTilesCoordinates := [] }

/-- A selected layer without a mask. -/
def sampleSelectedNode : LayerNode :=
  { name := "Layer 1", nodeType := NodeType.FillLayer, subLayers := [], mask := none }

/-- A stack whose single root layer is selected. -/
def sampleMaskStack : Stack :=
  { rootLayers := [sampleSelectedNode]
    selectedNodes := [sampleSelectedNode]
    allChannels := ["BaseColor"] }

/-- Host search results holding one AO generator and one curvature
generator. -/
def sampleResourceEnv : ResourceEnv :=
  { searchResults := fun q =>
      if q = ao_generator_query then ["aoGenerator"]
      else if q = curvature_generator_query then ["curvatureGenerator"]
      else [] }

def sampleMaskManager : VG_StackManager :=
  VG_StackManager.init (some sampleMaskStack)

/-- An empty layer stack with an empty selection. -/
def emptyProjectStack : Stack :=
  { rootLayers := [], selectedNodes := [], allChannels := ["BaseColor"] }

/-- A freshly constructed manager over the empty stack: the private layer
count is still uninitialized. -/
def freshManagerEmptyStack : VG_StackManager :=
  VG_StackManager.init (some emptyProjectStack)

/-- A selected layer that already carries a Black mask. -/
def maskedNode : LayerNode :=
  { name := "Masked"
    nodeType := NodeType.FillLayer
    subLayers := []
    mask := some { background := MaskBackground.Black, effects := [] } }

def maskedStack : Stack :=
  { rootLayers := [maskedNode], selectedNodes := [maskedNode], allChannels := ["BaseColor"] }

def maskedManager : VG_StackManager :=
  VG_StackManager.init (some maskedStack)

/-- The host state after the first add_mask call on maskedStack: the
selection now holds the updated nodes. -/
def maskedStackAfter : Stack :=
  { rootLayers := maskedStack.selectedNodes.map (add_mask_update_node none)
    selectedNodes := maskedStack.selectedNodes.map (add_mask_update_node none)
    allChannels := ["BaseColor"] }

def maskedManagerAfter : VG_StackManager :=
  VG_StackManager.init (some maskedStackAfter)

/- =====================================================================
   Theorems
   ===================================================================== -/

/-- The last element of the i < n satisfying p is none exactly when no
i < n satisfies p. -/
theorem getLast?_filterRange_eq_none (p : Nat → Bool) (n : Nat) :
    (((List.range n).filter p).getLast? = none) ↔ ∀ i, i < n → p i = false := by
  induction n with
  | zero => simp
  | succ n ih =>
      rw [List.range_succ, List.filter_append]
      by_cases hp : p n = true
      · have hfn : List.filter p [n] = [n] := by simp [hp]
        rw [hfn]
        constructor
        · intro h
          exact absurd h (by simp [List.getLast?_concat])
        · intro h
          exact absurd hp (by simpa using h n (Nat.lt_succ_self n))
      · have hp' : p n = false := by simpa using hp
        have hfn : List.filter p [n] = [] := by simp [hp']
        rw [hfn, List.append_nil, ih]
        constructor
        · intro h i hi
          rcases Nat.lt_succ_iff_lt_or_eq.mp hi with h' | h'
          · exact h i h'
          · simpa [h']
        · intro h i hi
          exact h i (Nat.lt_succ_of_lt hi)

/-- The last element of the i < n satisfying p indeed satisfies p and is
the greatest such index below n. -/
theorem getLast?_filterRange_eq_some (p : Nat → Bool) (n i : Nat)
    (h : ((List.range n).filter p).getLast? = some i) :
    p i = true ∧ i < n ∧ ∀ j, i < j → j < n → p j = false := by
  induction n with
  | zero => simp at h
  | succ n ih =>
      rw [List.range_succ, List.filter_append] at h
      by_cases hp : p n = true
      · have hfn : List.filter p [n] = [n] := by simp [hp]
        rw [hfn, List.getLast?_concat] at h
        obtain rfl : n = i := by simpa using h
        exact ⟨hp, Nat.lt_succ_self n, fun j hj hj' => absurd hj (by omega)⟩
      · have hp' : p n = false := by simpa using hp
        have hfn : List.filter p [n] = [] := by simp [hp']
        rw [hfn, List.append_nil] at h
        obtain ⟨h1, h2, h3⟩ := ih h
        refine ⟨h1, Nat.lt_succ_of_lt h2, fun j hj hj' => ?_⟩
        rcases Nat.lt_succ_iff_lt_or_eq.mp hj' with h' | h'
        · exact h3 j hj h'
        · simpa [h']

/-- rfindChar finds nothing exactly when the character does not occur. -/
theorem rfindChar_eq_none_iff (s : List Char) (c : Char) :
    rfindChar s c = none ↔ c ∉ s := by
  rw [rfindChar, getLast?_filterRange_eq_none]
  simp only [decide_eq_false_iff_not]
  constructor
  · intro h hc
    obtain ⟨i, hi⟩ := List.mem_iff_get?.mp hc
    have hilt : i < s.length := by
      by_contra hge
      rw [List.get?_eq_none.mpr (by omega)] at hi
      cases hi
    exact h i hilt hi
  · intro h i _ hi
    exact h (List.mem_iff_get?.mpr ⟨i, hi⟩)

/-- A successful rfindChar returns the last index of the character. -/
theorem rfindChar_isLast (s : List Char) (c : Char) (a : Nat)
    (h : rfindChar s c = some a) : isLastCharIdx s c a := by
  rw [rfindChar] at h
  obtain ⟨h1, _, h3⟩ := getLast?_filterRange_eq_some _ _ _ h
  refine ⟨by simpa using h1, fun j hj => ?_⟩
  by_cases hjl : j < s.length
  · simpa using h3 j hj hjl
  · rw [List.get?_eq_none.mpr (by omega)]
    simp

/-- rfindSub finds nothing exactly when the pattern does not occur as a
substring. -/
theorem rfindSub_eq_none_iff (s pat : List Char) :
    rfindSub s pat = none ↔ containsSub s pat = false := by
  rw [rfindSub, getLast?_filterRange_eq_none, containsSub]
  constructor
  · intro h
    rw [List.any_eq_false]
    intro i hi
    simp [h i (List.mem_range.mp hi)]
  · intro h i hi
    have hne := List.any_eq_false.mp h i (List.mem_range.mpr hi)
    exact Bool.eq_false_iff.mpr hne

/-- A successful rfindSub returns the last start index of the pattern. -/
theorem rfindSub_isLast (s pat : List Char) (hpat : pat ≠ []) (b : Nat)
    (h : rfindSub s pat = some b) : isLastSubIdx s pat b := by
  rw [rfindSub] at h
  obtain ⟨h1, _, h3⟩ := getLast?_filterRange_eq_some _ _ _ h
  refine ⟨h1, fun j hj => ?_⟩
  by_cases hjl : j < s.length + 1
  · exact h3 j hj hjl
  · have hdrop : s.drop j = [] := List.drop_eq_nil_of_le (by omega)
    rw [hdrop]
    cases pat with
    | nil => exact absurd rfl hpat
    | cons p ps => rfl

/-- C3: for every texture file path that contains at least one underscore
and the substring ".png", extract_channel_type returns the text strictly
between the last underscore and the last occurrence of ".png", truncated at
its first ".", with "ambientOcclusion" replaced by "AO"; for every path
lacking an underscore or lacking ".png" it returns none. -/
theorem C3_extract_channel_type_characterization (s : List Char) :
    (('_' ∈ s ∧ containsSub s ".png".data = true) →
      ∃ a b, isLastCharIdx s '_' a ∧ isLastSubIdx s ".png".data b ∧
        extract_channel_type s =
          some (aoRename (splitDotHead (pySlice s (a + 1) b)))) ∧
    ((¬ ('_' ∈ s) ∨ containsSub s ".png".data = false) →
      extract_channel_type s = none) := by
  constructor
  · rintro ⟨h1, h2⟩
    obtain ⟨a, ha⟩ : ∃ a, rfindChar s '_' = some a := by
      cases hx : rfindChar s '_' with
      | none => exact absurd ((rfindChar_eq_none_iff s '_').mp hx) (by simpa using h1)
      | some a => exact ⟨a, rfl⟩
    obtain ⟨b, hb⟩ : ∃ b, rfindSub s ".png".data = some b := by
      cases hx : rfindSub s ".png".data with
      | none =>
          have hc := (rfindSub_eq_none_iff s ".png".data).mp hx
          rw [h2] at hc
          cases hc
      | some b => exact ⟨b, rfl⟩
    refine ⟨a, b, rfindChar_isLast s '_' a ha,
      rfindSub_isLast s ".png".data (by decide) b hb, ?_⟩
    simp [extract_channel_type, ha, hb]
  · intro h
    rcases h with h | h
    · have hn := (rfindChar_eq_none_iff s '_').mpr h
      cases hx : rfindSub s ".png".data <;> simp [extract_channel_type, hn, hx]
    · have hn := (rfindSub_eq_none_iff s ".png".data).mpr h
      cases hx : rfindChar s '_' <;> simp [extract_channel_type, hn, hx]

/-- C3 witness: the characterization applied to the concrete path
"m_ao.png" yields the channel text "ao". -/
theorem C3_extract_channel_type_witness :
    ∃ a b, isLastCharIdx "m_ao.png".data '_' a ∧
      isLastSubIdx "m_ao.png".data ".png".data b ∧
      extract_channel_type "m_ao.png".data =
        some (aoRename (splitDotHead (pySlice "m_ao.png".data (a + 1) b))) :=
  (C3_extract_channel_type_characterization "m_ao.png".data).1
    ⟨by decide, by decide⟩

/-- Folding an if-increment over a list counts the elements satisfying the
predicate. -/
theorem foldl_count_eq {α : Type} (p : α → Bool) (l : List α) (c : Nat) :
    l.foldl (fun acc x => if p x then acc + 1 else acc) c
      = c + (l.filter p).length := by
  induction l generalizing c with
  | nil => simp
  | cons x xs ih =>
      cases hpx : p x <;> simp [hpx, ih] <;> omega

/-- One step of the generate_ref_point_layer counting loop adds the
contribution of the node. -/
theorem ref_point_step_eq (c : Nat) (node : LayerNode) :
    (let c1 := if pyStartsWith node.name ref_point_base_name then c + 1 else c
     if node.nodeType = NodeType.GroupLayer then
       node.subLayers.foldl
         (fun a sublayer =>
           if pyStartsWith sublayer.name ref_point_base_name then a + 1 else a) c1
     else c1)
      = c + ref_point_node_contribution node := by
  rw [ref_point_node_contribution]
  by_cases hg : node.nodeType = NodeType.GroupLayer <;>
    cases hpx : pyStartsWith node.name ref_point_base_name <;>
      simp [hg, hpx, foldl_count_eq] <;> omega

/-- The counting loop computes 1 plus the sum of node contributions. -/
theorem generate_ref_point_count_foldl (l : List LayerNode) (c : Nat) :
    l.foldl
      (fun ref_point_count node =>
        let ref_point_count :=
          if pyStartsWith node.name ref_point_base_name then ref_point_count + 1
          else ref_point_count
        if node.nodeType = NodeType.GroupLayer then
          node.subLayers.foldl
            (fun a sublayer =>
              if pyStartsWith sublayer.name ref_point_base_name then a + 1 else a)
            ref_point_count
        else ref_point_count)
      c
      = c + (l.map ref_point_node_contribution).sum := by
  induction l generalizing c with
  | nil => simp
  | cons x xs ih =>
      rw [List.foldl_cons, ih, List.map_cons, List.sum_cons]
      have hx := ref_point_step_eq c x
      simp only at hx
      rw [hx]
      omega

/-- The claimed count equals the sum of node contributions. -/
theorem ref_point_matches_eq_sum (l : List LayerNode) :
    ref_point_matches l = (l.map ref_point_node_contribution).sum := by
  induction l with
  | nil => simp [ref_point_matches]
  | cons x xs ih =>
      rw [List.map_cons, List.sum_cons, ← ih]
      rw [ref_point_matches, ref_point_matches, ref_point_node_contribution]
      by_cases hg : x.nodeType = NodeType.GroupLayer <;>
        cases hpx : pyStartsWith x.name ref_point_base_name <;>
          simp [List.filter_cons, hg, hpx] <;> omega

/-- The counting loop of generate_ref_point_layer computes 1 plus the
number of root nodes and group-layer sublayers whose name starts with
"REF POINT LAYER". -/
theorem generate_ref_point_count_eq (all_nodes : List LayerNode) :
    generate_ref_point_count all_nodes = 1 + ref_point_matches all_nodes := by
  rw [generate_ref_point_count, generate_ref_point_count_foldl,
    ref_point_matches_eq_sum]

/-- C2 (amended): generate_ref_point_layer names the new paint layer
"REF POINT LAYER (n)" where n is 1 plus the number of root nodes and
group-layer sublayers whose name starts with "REF POINT LAYER"; the name is
not guaranteed to differ from existing node names. -/
theorem C2_ref_point_layer_name (all_nodes : List LayerNode) :
    generate_ref_point_name all_nodes =
      ref_point_base_name ++ " (" ++ toString (1 + ref_point_matches all_nodes) ++ ")" := by
  rw [generate_ref_point_name, generate_ref_point_count_eq]

/-- C2 counterexample: on a stack whose only root node is already named
"REF POINT LAYER (2)", the computed name equals that existing node name, so
the computed name is not unique in the stack. -/
theorem C2_ref_point_name_collision :
    generate_ref_point_name ref_point_collision_nodes
      ∈ stackNodeNames ref_point_collision_nodes := by
  have h : generate_ref_point_name ref_point_collision_nodes
      = "REF POINT LAYER (2)" := rfl
  rw [h]
  have hnames : stackNodeNames ref_point_collision_nodes
      = ["REF POINT LAYER (2)"] := rfl
  rw [hnames]
  exact List.mem_singleton.mpr rfl

/-- C1 code evaluation: the names LayerManager and MaskManager the menu
handlers resolve on vg_layerstack, the name VG_ExportManager the
Ctrl+Shift+G shortcut handler resolves on vg_export, and the layer_name
keyword the menu handlers pass to add_layer are all undefined in the
repository modules, while VG_StackManager does resolve; consequently every
menu handler except launch_quick_bake, and the Ctrl+Shift+G shortcut
handler, reach an unresolvable name before any host-API layer operation. -/
theorem C1_handler_name_resolution :
    resolvesModuleRef { moduleName := "vg_layerstack", attrName := "LayerManager" } = false ∧
    resolvesModuleRef { moduleName := "vg_layerstack", attrName := "MaskManager" } = false ∧
    resolvesModuleRef { moduleName := "vg_export", attrName := "VG_ExportManager" } = false ∧
    ¬ ("layer_name" ∈ add_layer_parameter_names) ∧
    ("layer_name" ∈ menu_add_layer_call_kwargs) ∧
    resolvesModuleRef { moduleName := "vg_layerstack", attrName := "VG_StackManager" } = true ∧
    (menu_handler_module_refs.filter
        (fun handler => handler.2.any (fun r => !(resolvesModuleRef r)))).map Prod.fst =
      [ "new_paint_layer", "new_fill_layer_base", "new_fill_layer_height",
        "new_fill_layer_all", "new_fill_layer_empty", "add_mask",
        "add_mask_with_fill_effect", "add_ao_mask", "add_curvature_mask",
        "create_layer_from_stack", "flatten_stack", "create_ref_point_layer" ] ∧
    (shortcut_handler_module_refs.filter
        (fun handler => handler.2.any (fun r => !(resolvesModuleRef r)))).map Prod.fst =
      [ "on_ctrl_plus_shift_plus_g_shortcut_activated" ] := by
  decide

/-- C4 code evaluation: flatten_stack stops with an AttributeError at the
vg_layerstack.LayerManager lookup, before exporting the channels, before
deleting any root layer, and before inserting a fill layer — whatever the
stack content and the export outcome would have been. -/
theorem C4_flatten_stack_aborts_before_delete (rootLayerNames : List String)
    (exportSucceeds : Bool) :
    (flatten_stack_run rootLayerNames exportSucceeds).2 =
      some (.attributeError "vg_layerstack" "LayerManager") ∧
    ((flatten_stack_run rootLayerNames exportSucceeds).1.filter isDeleteNodeCall) = [] ∧
    HostCall.exportProjectTextures ∉ (flatten_stack_run rootLayerNames exportSucceeds).1 ∧
    HostCall.insertFillLayer ∉ (flatten_stack_run rootLayerNames exportSucceeds).1 := by
  have hres : resolvesModuleRef ⟨"vg_layerstack", "LayerManager"⟩ = false := by decide
  refine ⟨?_, ?_, ?_, ?_⟩ <;> simp [flatten_stack_run, hres, isDeleteNodeCall]

/-- C7: quick_bake configures baking before starting it: it sets the common
OutputSize parameter to the floor base-2 logarithms of the current
resolution, sets the enabled bakers to exactly the already-enabled baker
ids mapped through MeshMapUsage, and afterwards starts exactly one
asynchronous bake of the current texture set. -/
theorem C7_quick_bake_configures_then_bakes (env : BakingHostEnv) :
    ∃ i j k, i < k ∧ j < k ∧
      (quick_bake env).get? i =
        some (.setCommonOutputSize env.activeTextureSetName
          (Nat.log2 env.resolution.width, Nat.log2 env.resolution.height)) ∧
      (quick_bake env).get? j =
        some (.setEnabledBakers env.activeTextureSetName
          (env.enabledBakerIds.map (fun b => { id := b }))) ∧
      (quick_bake env).get? k = some (.bakeAsync env.activeTextureSetName) ∧
      ((quick_bake env).filter isBakeAsyncCall).length = 1 := by
  refine ⟨0, 1, 3, by omega, by omega, ?_, ?_, ?_, ?_⟩ <;>
    simp [quick_bake, configure_baking_parameters, start_baking,
      mesh_maps_to_bake_list, isBakeAsyncCall]

/-- C8: create_menu adds exactly one menu holding exactly thirteen actions
and five separators, in the listed order with the listed shortcuts, and
define_shortcuts binds exactly the eight listed keyboard shortcuts. -/
theorem C8_fixed_command_set :
    (create_menu.filter isAddMenuCall).length = 1 ∧
    (create_menu.filter isAddActionCall).length = 13 ∧
    (create_menu.filter isAddSeparatorCall).length = 5 ∧
    create_menu.filterMap actionTitleAndShortcut =
      [ ("New Paint Layer", some "Ctrl+P"),
        ("New Fill Layer with Base Color", some "Ctrl+F"),
        ("New Fill Layer with Height", some "Ctrl+Alt+F"),
        ("New Fill Layer with All Channels", some "Ctrl+Shift+F"),
        ("New Fill Layer, no channel", some "Alt+F"),
        ("Add Mask to Selected Layer", some "Ctrl+M"),
        ("Add Mask with Fill Effect", some "Shift+M"),
        ("Add Mask with AO Generator", some "Ctrl+Shift+M"),
        ("Add Mask with Curvature Generator", some "Ctrl+Alt+M"),
        ("Create New Layer from Visible Stack", some "Ctrl+Shift+G"),
        ("Flatten Stack", none),
        ("Create Reference Point Layer", some "Ctrl+R"),
        ("Quick Bake", some "Ctrl+B") ] ∧
    define_shortcuts.length = 8 ∧
    define_shortcuts.map Prod.fst =
      [ { ctrl := true, alt := false, shiftMod := false, key := "F" },
        { ctrl := true, alt := true, shiftMod := false, key := "F" },
        { ctrl := true, alt := false, shiftMod := true, key := "F" },
        { ctrl := true, alt := false, shiftMod := false, key := "P" },
        { ctrl := true, alt := false, shiftMod := false, key := "M" },
        { ctrl := true, alt := false, shiftMod := true, key := "M" },
        { ctrl := true, alt := true, shiftMod := false, key := "M" },
        { ctrl := true, alt := false, shiftMod := true, key := "G" } ] := by
  exact ⟨rfl, rfl, rfl, rfl, rfl, rfl⟩

/-- C5: the generated configuration has exactly one export preset, named by
preset_name, with one map entry per channel of the active stack; each entry
has file name made of the mesh/texture-set placeholders and the channel map
name, with ".$udim" appended exactly when the texture set has UV tiles,
four RGBA channel mappings whose source equals the destination, 8-bit png
parameters, and the channel named AO is exported under the map name
ambientOcclusion. -/
theorem C5_export_config_preset (export_path preset_name : String)
    (info : TextureSetInfoData) :
    (generate_export_config export_path preset_name info).exportPresets.length = 1 ∧
    (∀ preset ∈ (generate_export_config export_path preset_name info).exportPresets,
      preset.name = preset_name ∧
      preset.maps = generate_current_channels_maps_export info) ∧
    (generate_current_channels_maps_export info).length = info.channels.length ∧
    (∀ i (h : i < info.channels.length),
      ∃ entry, (generate_current_channels_maps_export info).get? i = some entry ∧
        entry.fileName =
          "$mesh_$textureSet_" ++ exportMapName (info.channels.get ⟨i, h⟩)
            ++ (if info.hasUVTiles then ".$udim" else "") ∧
        entry.channels.map ChannelMapping.destChannel = ["R", "G", "B", "A"] ∧
        (∀ cm ∈ entry.channels,
          cm.srcChannel = cm.destChannel ∧ cm.srcMapType = "DocumentMap" ∧
          cm.srcMapName = exportMapName (info.channels.get ⟨i, h⟩)) ∧
        entry.parameters = { bitDepth := "8", dithering := false, fileFormat := "png" }) ∧
    (∀ c : Channel, c.name = "AO" → exportMapName c = "ambientOcclusion") := by
  refine ⟨rfl, ?_, ?_, ?_, ?_⟩
  · intro preset hp
    simp only [generate_export_config, List.mem_singleton] at hp
    subst hp
    exact ⟨rfl, rfl⟩
  · simp [generate_current_channels_maps_export]
  · intro i h
    have hget : info.channels.get? i = some (info.channels.get ⟨i, h⟩) :=
      List.get?_eq_get h
    have hentry : (generate_current_channels_maps_export info).get? i
        = some
          { fileName :=
              "$mesh_$textureSet_" ++ exportMapName (info.channels.get ⟨i, h⟩)
                ++ (if info.hasUVTiles then ".$udim" else "")
            channels := "RGBA".data.map (fun channel =>
              { destChannel := String.mk [channel]
                srcChannel := String.mk [channel]
                srcMapType := "DocumentMap"
                srcMapName := exportMapName (info.channels.get ⟨i, h⟩) })
            parameters := { bitDepth := "8", dithering := false, fileFormat := "png" } } := by
      simp only [generate_current_channels_maps_export, List.get?_map, hget,
        Option.map_some']
    refine ⟨_, hentry, rfl, rfl, ?_, rfl⟩
    intro cm hcm
    simp only [List.mem_map] at hcm
    obtain ⟨ch, _, rfl⟩ := hcm
    exact ⟨rfl, rfl, rfl⟩
  · intro c hc
    simp [exportMapName, hc]

/-- C5 witness: on a concrete texture set whose second channel is named AO,
the second map entry exports it as ambientOcclusion with RGBA source equal
to destination and 8-bit png parameters. -/
theorem C5_export_config_witness :
    ∃ entry,
      (generate_current_channels_maps_export sampleTextureSetInfo).get? 1 = some entry ∧
      entry.fileName = "$mesh_$textureSet_ambientOcclusion" ∧
      entry.channels.map ChannelMapping.destChannel = ["R", "G", "B", "A"] ∧
      (∀ cm ∈ entry.channels,
        cm.srcChannel = cm.destChannel ∧ cm.srcMapType = "DocumentMap" ∧
        cm.srcMapName = "ambientOcclusion") ∧
      entry.parameters = { bitDepth := "8", dithering := false, fileFormat := "png" } :=
  (C5_export_config_preset "path" "Current channels Export"
    sampleTextureSetInfo).2.2.2.1 1 (by decide)

/-- Every node updated by add_mask with the color Black carries a fresh
Black mask afterwards, whether or not it was masked before. -/
theorem add_mask_update_node_black (node : LayerNode) :
    (add_mask_update_node (some "Black") node).mask
      = some { background := MaskBackground.Black, effects := [] } := by
  cases hm : node.mask <;>
    simp [add_mask_update_node, hm, pyTruthyStr, color_map]

/-- add_mask with the color Black on a manager with an active stack updates
every selected node. -/
theorem add_mask_black_spec (m : VG_StackManager) (stk : Stack)
    (hstk : m.current_stack = some stk) :
    add_mask m (some "Black")
      = .updated (stk.selectedNodes.map (add_mask_update_node (some "Black"))) := by
  rw [add_mask]
  have hval : ¬ (pyTruthyStr (some "Black")
      ∧ ((some "Black").bind color_map).isNone = true) := by decide
  rw [if_neg hval, hstk]

/-- Shared specification of the two generator-mask operations: with an
active stack and a nonempty search result, every selected layer ends with a
Black mask containing exactly the one inserted generator effect, identified
by the first search result. -/
theorem add_black_mask_with_generator_spec (query : String) (env : ResourceEnv)
    (m : VG_StackManager) (stk : Stack) (g : String) (gs : List String)
    (hstk : m.current_stack = some stk)
    (hq : env.searchResults query = g :: gs) :
    ∃ out, add_black_mask_with_generator query env m = .updated out ∧
      out.length = stk.selectedNodes.length ∧
      ∀ node ∈ out,
        node.mask = some { background := MaskBackground.Black, effects := [g] } := by
  rw [add_black_mask_with_generator, add_mask_black_spec m stk hstk, hq]
  refine ⟨_, rfl, by simp, ?_⟩
  intro node hnode
  simp only [List.mem_map] at hnode
  obtain ⟨n0, ⟨n1, _, rfl⟩, rfl⟩ := hnode
  rw [insert_generator_effect_node, add_mask_update_node_black]
  rfl

/-- C6: after add_black_mask_with_ao_generator (respectively
add_black_mask_with_curvature_generator) runs with an active stack, every
selected layer carries a Black-background mask into whose mask stack
exactly one generator effect has been inserted, identified by the first
Ambient Occlusion (respectively Curvature) generator resource found in the
starter assets. -/
theorem C6_black_masks_with_generator_effects (env : ResourceEnv)
    (m : VG_StackManager) (stk : Stack) (g c : String) (gs cs : List String)
    (hstk : m.current_stack = some stk)
    (hao : env.searchResults ao_generator_query = g :: gs)
    (hcurv : env.searchResults curvature_generator_query = c :: cs) :
    (∃ out, add_black_mask_with_ao_generator env m = .updated out ∧
      out.length = stk.selectedNodes.length ∧
      ∀ node ∈ out,
        node.mask = some { background := MaskBackground.Black, effects := [g] }) ∧
    (∃ out, add_black_mask_with_curvature_generator env m = .updated out ∧
      out.length = stk.selectedNodes.length ∧
      ∀ node ∈ out,
        node.mask = some { background := MaskBackground.Black, effects := [c] }) :=
  ⟨add_black_mask_with_generator_spec ao_generator_query env m stk g gs hstk hao,
   add_black_mask_with_generator_spec curvature_generator_query env m stk c cs hstk hcurv⟩

/-- C6 witness: on a concrete one-layer selection with concrete starter
asset search results, both operations leave the layer with a Black mask
holding exactly the respective generator effect. -/
theorem C6_black_masks_witness :
    (∃ out, add_black_mask_with_ao_generator sampleResourceEnv sampleMaskManager
        = .updated out ∧
      out.length = sampleMaskStack.selectedNodes.length ∧
      ∀ node ∈ out,
        node.mask = some { background := MaskBackground.Black, effects := ["aoGenerator"] }) ∧
    (∃ out, add_black_mask_with_curvature_generator sampleResourceEnv sampleMaskManager
        = .updated out ∧
      out.length = sampleMaskStack.selectedNodes.length ∧
      ∀ node ∈ out,
        node.mask = some { background := MaskBackground.Black, effects := ["curvatureGenerator"] }) :=
  C6_black_masks_with_generator_effects sampleResourceEnv sampleMaskManager
    sampleMaskStack "aoGenerator" "curvatureGenerator" [] [] rfl (by decide) (by decide)

/-- C9: on a manager whose private _stack_layers_count attribute is still
None, add_layer never takes the insert-at-top-of-empty-stack branch (None
is never equal to 0 in Python), so with layer_position Above it indexes the
first element of the current selection: it raises IndexError exactly when
the selection is empty and otherwise inserts above the first selected node.
The stack itself is arbitrary here, so this holds in particular when its
layer list is empty. -/
theorem C9_add_layer_uninitialized_count (m : VG_StackManager) (stk : Stack)
    (hcount : m.stack_layers_count = none)
    (hstk : m.current_stack = some stk) :
    (∀ layer_type, stk.selectedNodes = [] →
      add_layer m layer_type none "Above" = .raisedIndexError) ∧
    (∀ x xs, stk.selectedNodes = x :: xs →
      add_layer m "paint" none "Above" =
        .created (.aboveNode x)
          { name := "New Paint layer", activeChannels := stk.allChannels }) ∧
    (∀ pos layer, add_layer m "paint" none "Above" = .created pos layer →
      pos ≠ InsertPosition.fromTexturesetStack) := by
  refine ⟨?_, ?_, ?_⟩
  · intro layer_type hsel
    simp [add_layer, hstk, hcount, hsel, pyOptNatEqZero]
  · intro x xs hsel
    simp [add_layer, hstk, hcount, hsel, pyOptNatEqZero, newLayerChannels,
      pyTruthyList]
  · intro pos layer heq
    cases hsel : stk.selectedNodes with
    | nil =>
        simp [add_layer, hstk, hcount, hsel, pyOptNatEqZero] at heq
    | cons x xs =>
        simp [add_layer, hstk, hcount, hsel, pyOptNatEqZero, newLayerChannels,
          pyTruthyList] at heq
        rcases heq with ⟨hpos, _⟩
        rw [← hpos]
        intro hcontra
        cases hcontra

/-- C9 witness: a freshly constructed manager over an empty stack with an
empty selection raises the IndexError even though the stack has zero
layers. -/
theorem C9_add_layer_witness :
    add_layer freshManagerEmptyStack "paint" none "Above" = .raisedIndexError :=
  (C9_add_layer_uninitialized_count freshManagerEmptyStack emptyProjectStack
    rfl rfl).1 "paint" rfl

/-- add_mask with no color on a manager with an active stack updates every
selected node. -/
theorem add_mask_none_spec (m : VG_StackManager) (stk : Stack)
    (hstk : m.current_stack = some stk) :
    add_mask m none = .updated (stk.selectedNodes.map (add_mask_update_node none)) := by
  rw [add_mask]
  have hval : ¬ (pyTruthyStr none
      ∧ ((none : Option String).bind color_map).isNone = true) := by decide
  rw [if_neg hval, hstk]

/-- add_mask with no color inverts the background of an existing mask and
leaves a fresh effect stack. -/
theorem add_mask_update_node_invert (node : LayerNode) (msk : MaskState)
    (hmask : node.mask = some msk) :
    (add_mask_update_node none node).mask
      = some { background :=
                 (if msk.background = MaskBackground.Black then MaskBackground.White
                  else MaskBackground.Black)
               effects := [] } := by
  simp [add_mask_update_node, hmask, pyTruthyStr]

/-- C10: for every selected layer that already has a mask, add_mask with no
color replaces it by a mask with the opposite background, and running
add_mask with no color twice in succession (the second call seeing the
updated selection) restores the original background. -/
theorem C10_add_mask_inversion_involution
    (m₁ m₂ : VG_StackManager) (stk₁ stk₂ : Stack)
    (h₁ : m₁.current_stack = some stk₁)
    (h₂ : m₂.current_stack = some stk₂)
    (hlink : add_mask m₁ none = .updated stk₂.selectedNodes) :
    ∀ i node b effs,
      stk₁.selectedNodes.get? i = some node →
      node.mask = some { background := b, effects := effs } →
      (∃ nodeMid, stk₂.selectedNodes.get? i = some nodeMid ∧
        nodeMid.mask = some
          { background :=
              (if b = MaskBackground.Black then MaskBackground.White
                else MaskBackground.Black),
            effects := [] }) ∧
      (∃ out, add_mask m₂ none = .updated out ∧
        ∃ nodeEnd, out.get? i = some nodeEnd ∧
          nodeEnd.mask = some { background := b, effects := [] }) := by
  intro i node b effs hget hmask
  rw [add_mask_none_spec m₁ stk₁ h₁] at hlink
  have hsel₂ : stk₂.selectedNodes = stk₁.selectedNodes.map (add_mask_update_node none) :=
    (AddMaskOutcome.updated.inj hlink).symm
  have hmid : stk₂.selectedNodes.get? i = some (add_mask_update_node none node) := by
    rw [hsel₂, List.get?_map, hget, Option.map_some']
  have hmidmask := add_mask_update_node_invert node _ hmask
  refine ⟨⟨_, hmid, hmidmask⟩, ?_⟩
  refine ⟨_, add_mask_none_spec m₂ stk₂ h₂, ?_⟩
  refine ⟨_, by rw [List.get?_map, hmid, Option.map_some'], ?_⟩
  rw [add_mask_update_node_invert _ _ hmidmask]
  cases b <;> rfl

/-- C10 witness: a concrete selected layer with a Black mask is White after
one parameterless add_mask and Black again after the second. -/
theorem C10_add_mask_involution_witness :
    (∃ nodeMid, maskedStackAfter.selectedNodes.get? 0 = some nodeMid ∧
      nodeMid.mask = some { background := MaskBackground.White, effects := [] }) ∧
    (∃ out, add_mask maskedManagerAfter none = .updated out ∧
      ∃ nodeEnd, out.get? 0 = some nodeEnd ∧
        nodeEnd.mask = some { background := MaskBackground.Black, effects := [] }) :=
  C10_add_mask_inversion_involution maskedManager maskedManagerAfter
    maskedStack maskedStackAfter rfl rfl rfl 0 maskedNode MaskBackground.Black [] rfl rfl

end VGPainter
